import Mathlib

/-!
Shallow embedding of the hris repository RBAC and enrollment logic.

The definitions below are translated line by line from
`src/accounts/rbac_service.py`, `src/accounts/rbac_decorators.py`,
`src/accounts/permissions.py`, `src/accounts/signals.py` and
`src/broker_console/views.py`. Database tables are passed explicitly; reads
of the `Organization` and `Employer` tables are `Except`-valued so that the
try/except fail-closed structure of the source can be stated and proved.
-/

namespace Hris

/-- Error raised by a database read (any exception caught by the source). -/
inductive DbErr where
  | dbError
deriving DecidableEq

/-- accounts `Organization` as consumed by `rbac_service.py`: an id, a
`type` tag (broker / employer / carrier) and an `is_active` flag. -/
structure Org where
  id : String
  type : String
  is_active : Bool
deriving DecidableEq

/-- Legacy access profile as consumed by `rbac_service.py`: a `role` string
and an optional `organization`. -/
structure Profile where
  role : String
  organization : Option Org
deriving DecidableEq

/-- Django user as consumed by the RBAC layer: primary key and the optional
related profile (`getattr(user, "profile", None)`). -/
structure User where
  id : Nat
  profile : Option Profile
deriving DecidableEq

/-- `broker_console.Employer` row as consumed by `rbac_service.py`: the
employer id and the id of the owning broker organization. -/
structure Employer where
  id : String
  broker_id : String
deriving DecidableEq

/-- The database state visible to `rbac_service.py`.  Each table read may
fail with `DbErr`, modelling the exceptions the source catches. -/
structure Db where
  organizations : Except DbErr (List Org)
  employers : Except DbErr (List Employer)

/-- `RBACService.ROLE_PERMISSIONS` (rbac_service.py lines 31-96),
transcribed verbatim as an association list. -/
def ROLE_PERMISSIONS : List (String × List (String × List String)) :=
  [("super_admin",
     [("employees", ["create", "read", "update", "delete", "manage"]),
      ("employers", ["create", "read", "update", "delete", "manage"]),
      ("plans", ["create", "read", "update", "delete", "manage"]),
      ("enrollments", ["create", "read", "update", "delete", "manage"]),
      ("users", ["create", "read", "update", "delete", "manage"]),
      ("roles", ["create", "read", "update", "delete", "manage"]),
      ("organizations", ["create", "read", "update", "delete", "manage"]),
      ("settings", ["create", "read", "update", "delete", "manage"]),
      ("reports", ["read", "export", "view_all"]),
      ("billing", ["read", "update", "manage"])]),
   ("broker_admin",
     [("employees", ["create", "read", "update", "delete"]),
      ("employers", ["create", "read", "update", "delete"]),
      ("plans", ["create", "read", "update", "delete"]),
      ("enrollments", ["read", "update", "export"]),
      ("users", ["create", "read", "update"]),
      ("reports", ["read", "export", "view_org"]),
      ("settings", ["read", "update"])]),
   ("broker_user",
     [("employees", ["read", "update"]),
      ("employers", ["read", "update"]),
      ("plans", ["read"]),
      ("enrollments", ["read", "update"]),
      ("reports", ["read", "view_assigned"])]),
   ("employer_admin",
     [("employees", ["create", "read", "update"]),
      ("plans", ["read"]),
      ("enrollments", ["read"]),
      ("users", ["create", "read", "update"]),
      ("reports", ["read", "view_own"]),
      ("settings", ["read", "update"])]),
   ("employer_hr",
     [("employees", ["read", "update"]),
      ("plans", ["read"]),
      ("enrollments", ["read"]),
      ("reports", ["read", "view_own"])]),
   ("employee",
     [("employees", ["view_own"]),
      ("plans", ["read"]),
      ("enrollments", ["view_own", "update_own"])]),
   ("carrier_admin",
     [("plans", ["create", "read", "update", "delete"]),
      ("enrollments", ["read"]),
      ("reports", ["read", "view_carrier"])]),
   ("carrier_user",
     [("plans", ["read"]),
      ("enrollments", ["read"]),
      ("reports", ["read"])]),
   ("readonly_user",
     [("employees", ["read"]),
      ("employers", ["read"]),
      ("plans", ["read"]),
      ("enrollments", ["read"]),
      ("reports", ["read"])])]

/-- Python `dict.get(key, default)` over an association list. -/
def dictGet {α : Type} (d : List (String × α)) (k : String) (default : α) : α :=
  match d.find? (fun p => p.1 == k) with
  | some p => p.2
  | none => default

/-- Python truthiness of an `Optional[str]`: `None` and the empty string
are falsy. -/
def truthyStr : Option String → Bool
  | none => false
  | some s => !(s == "")

/-- `RBACService._user_can_access_employer` (rbac_service.py lines
171-185): an `Employer.objects.filter(id=employer_id, broker=org).exists()`
query, with every exception caught and turned into `false`. -/
def user_can_access_employer (db : Db) (profile : Profile) (employer_id : String) : Bool :=
  match profile.organization with
  | none => false
  | some org =>
    match db.employers with
    | .error _ => false
    | .ok emps => emps.any (fun e => e.id == employer_id && e.broker_id == org.id)

/-- Python `str.startswith`, written over the character list so that it
evaluates by kernel reduction. -/
def pyStartsWith (s p : String) : Bool := p.data.isPrefixOf s.data

/-- `org_scoped_actions` local list (rbac_service.py line 151). -/
def org_scoped_actions : List String := ["create", "update", "delete", "manage"]

/-- `RBACService.has_permission` (rbac_service.py lines 115-169). -/
def has_permission (db : Db) (user : User) (resource action : String)
    (organization_id : Option String) : Bool :=
  match user.profile with
  | none => false
  | some profile =>
    let role := profile.role
    let user_org_id : Option String := profile.organization.map (fun o => o.id)
    if role == "super_admin" then true
    else
      let role_permissions := dictGet ROLE_PERMISSIONS role []
      let resource_permissions := dictGet role_permissions resource []
      if !(resource_permissions.contains action) then false
      else if truthyStr organization_id && truthyStr user_org_id then
        if org_scoped_actions.contains action then
          if pyStartsWith role "broker_"
              && user_can_access_employer db profile (organization_id.getD "") then true
          else if pyStartsWith role "employer_" && user_org_id == organization_id then true
          else if role == "employee" && user_org_id == organization_id then true
          else false
        else true
      else true

/-- `RBACService.get_accessible_organizations` (rbac_service.py lines
284-317).  The two `.error` branches are the except handler of the source,
which logs and returns the empty list. -/
def get_accessible_organizations (db : Db) (user : User) : List String :=
  match user.profile with
  | none => []
  | some profile =>
    let role := profile.role
    if role == "super_admin" then
      match db.organizations with
      | .error _ => []
      | .ok orgs => (orgs.filter (fun o => o.is_active)).map (fun o => o.id)
    else if pyStartsWith role "broker_" then
      match profile.organization with
      | some org =>
        if org.type == "broker" then
          match db.employers with
          | .error _ => []
          | .ok emps =>
            org.id :: (emps.filter (fun e => e.broker_id == org.id)).map (fun e => e.id)
        else []
      | none => []
    else
      match profile.organization with
      | some org => [org.id]
      | none => []

/-- The body of `get_accessible_organizations` with database errors
propagating instead of being caught, used to state the fail-closed
property of the try/except wrapper. -/
def get_accessible_organizations_body (db : Db) (user : User) :
    Except DbErr (List String) :=
  match user.profile with
  | none => .ok []
  | some profile =>
    let role := profile.role
    if role == "super_admin" then
      match db.organizations with
      | .error e => .error e
      | .ok orgs => .ok ((orgs.filter (fun o => o.is_active)).map (fun o => o.id))
    else if pyStartsWith role "broker_" then
      match profile.organization with
      | some org =>
        if org.type == "broker" then
          match db.employers with
          | .error e => .error e
          | .ok emps =>
            .ok (org.id :: (emps.filter (fun e => e.broker_id == org.id)).map (fun e => e.id))
        else .ok []
      | none => .ok []
    else
      match profile.organization with
      | some org => .ok [org.id]
      | none => .ok []

/-- A queryset row, carrying exactly the fields the queryset filters of
`rbac_service.py` compare on. -/
structure Row where
  id : String := ""
  user_id : Option Nat := none
  employer_id : Option String := none
  broker_id : Option String := none
  employee_user_id : Option Nat := none
  employee_employer_id : Option String := none
  organization_id : Option String := none
deriving DecidableEq

/-- Django `field__in=list` semantics for a nullable field. -/
def optIn (o : Option String) (l : List String) : Bool :=
  match o with
  | some s => l.contains s
  | none => false

/-- `RBACService.filter_queryset_by_permissions` (rbac_service.py lines
319-364). -/
def filter_queryset_by_permissions (db : Db) (user : User) (queryset : List Row)
    (resource : String) : List Row :=
  match user.profile with
  | none => []
  | some profile =>
    let role := profile.role
    if role == "super_admin" then queryset
    else
      let accessible_orgs := get_accessible_organizations db user
      let defaultFilter := queryset.filter (fun r => optIn r.organization_id accessible_orgs)
      if resource == "employees" then
        if role == "employee" then
          queryset.filter (fun r => r.user_id == some user.id)
        else
          queryset.filter (fun r => optIn r.employer_id accessible_orgs)
      else if resource == "employers" then
        if pyStartsWith role "broker_" then
          queryset.filter (fun r => r.broker_id == profile.organization.map (fun o => o.id))
        else if pyStartsWith role "employer_" then
          queryset.filter (fun r => some r.id == profile.organization.map (fun o => o.id))
        else defaultFilter
      else if resource == "enrollments" then
        if role == "employee" then
          queryset.filter (fun r => r.employee_user_id == some user.id)
        else
          queryset.filter (fun r => optIn r.employee_employer_id accessible_orgs)
      else defaultFilter

/-! ### Membership-model guards and audit events
(`src/accounts/permissions.py`, `src/accounts/rbac_decorators.py`,
`src/accounts/signals.py`) -/

/-- `accounts.Membership` row: (user, organization, role), with the user
email and organization name that the signal handlers put in metadata. -/
structure Membership where
  pk : Nat
  user_id : Nat
  organization_id : String
  role : String
  user_email : String := ""
  organization_name : String := ""
deriving DecidableEq

/-- The JSON metadata keys the audit writers of the source actually set. -/
structure Metadata where
  view : Option String := none
  reason : Option String := none
  required_roles : Option (List String) := none
  user_role : Option String := none
  old_role : Option String := none
  new_role : Option String := none
  role : Option String := none
  organization : Option String := none
  user_email : Option String := none
deriving DecidableEq

/-- `accounts.AuditEvent` row as written by the guards and signals
(actor, event kind, optional organization, metadata). -/
structure AuditEvent where
  user : Option Nat
  event : String
  organization : Option String := none
  metadata : Metadata := {}
deriving DecidableEq

/-- Outcome of a guarded request. -/
inductive GuardOutcome where
  | allowed
  | denied
  | unauthenticated
deriving DecidableEq

/-- `Membership.objects.get(user=..., organization=...)` lookup. -/
def find_membership (ms : List Membership) (uid : Nat) (orgId : String) :
    Option Membership :=
  ms.find? (fun m => m.user_id == uid && m.organization_id == orgId)

/-- `org_scoped` decorator, membership-check core (permissions.py lines
63-88): a missing membership writes one permission_denied AuditEvent with
reason no_membership and denies.  Returns the outcome and the list of new
audit events. -/
def org_scoped_guard (ms : List Membership) (uid : Nat) (orgId : String)
    (viewName : String) : GuardOutcome × List AuditEvent :=
  match find_membership ms uid orgId with
  | some _ => (.allowed, [])
  | none =>
    (.denied,
     [{ user := some uid, event := "permission_denied", organization := some orgId,
        metadata := { view := some viewName, reason := some "no_membership" } }])

/-- `requires_role` decorator (permissions.py lines 93-124): `org_scoped`
first, then the role check; an insufficient role writes one
permission_denied AuditEvent with reason insufficient_role and denies. -/
def requires_role_guard (ms : List Membership) (uid : Nat) (orgId : String)
    (required_roles : List String) (viewName : String) :
    GuardOutcome × List AuditEvent :=
  match find_membership ms uid orgId with
  | none =>
    (.denied,
     [{ user := some uid, event := "permission_denied", organization := some orgId,
        metadata := { view := some viewName, reason := some "no_membership" } }])
  | some m =>
    if required_roles.contains m.role then (.allowed, [])
    else
      (.denied,
       [{ user := some uid, event := "permission_denied", organization := some orgId,
          metadata := { view := some viewName, required_roles := some required_roles,
                        user_role := some m.role, reason := some "insufficient_role" } }])

/-- `superuser_required` decorator (permissions.py lines 127-150): a
non-superuser actor gets one permission_denied AuditEvent with reason
not_superuser and is denied. -/
def superuser_required_guard (uid : Nat) (is_superuser : Bool)
    (viewName : String) : GuardOutcome × List AuditEvent :=
  if is_superuser then (.allowed, [])
  else
    (.denied,
     [{ user := some uid, event := "permission_denied",
        metadata := { view := some viewName, reason := some "not_superuser" } }])

/-- `require_permission` decorator (rbac_decorators.py lines 16-57): an
anonymous user gets 401; a user failing `has_permission` gets 403.  The
source only calls `logger.warning` on denial, so the list of new
AuditEvents is empty in every branch. -/
def require_permission_guard (db : Db) (user : Option User)
    (resource action : String) (organization_id : Option String) :
    GuardOutcome × List AuditEvent :=
  match user with
  | none => (.unauthenticated, [])
  | some u =>
    if has_permission db u resource action organization_id then (.allowed, [])
    else (.denied, [])

/-- `handle_membership_created` post_save receiver (signals.py lines
150-185).  `dbms` is the Membership table at the time the signal fires,
which is after the row has been written. -/
def handle_membership_post_save (dbms : List Membership) (inst : Membership)
    (created : Bool) : List AuditEvent :=
  if created then
    [{ user := some inst.user_id, event := "membership_created",
       organization := some inst.organization_id,
       metadata := { role := some inst.role,
                     organization := some inst.organization_name,
                     user_email := some inst.user_email } }]
  else
    match dbms.find? (fun m => m.pk == inst.pk) with
    | some old =>
      if !(old.role == inst.role) then
        [{ user := some inst.user_id, event := "role_change",
           organization := some inst.organization_id,
           metadata := { old_role := some old.role, new_role := some inst.role,
                         organization := some inst.organization_name,
                         user_email := some inst.user_email } }]
      else []
    | none => []

/-- Writing the updated row of an existing Membership to the table. -/
def update_row (dbms : List Membership) (inst : Membership) : List Membership :=
  dbms.map (fun m => if m.pk == inst.pk then inst else m)

/-- `Membership.save()` on an existing row: the row is written first, and
only then does Django fire post_save with `created=False`, so the handler
sees the already-updated table.  Returns the new table and the audit
events the signal produced. -/
def membership_save_update (dbms : List Membership) (inst : Membership) :
    List Membership × List AuditEvent :=
  let dbmsAfter := update_row dbms inst
  (dbmsAfter, handle_membership_post_save dbmsAfter inst false)

/-! ### Enrollment state machine (`src/broker_console/views.py`) -/

/-- `broker_console.EmployeeEnrollment` fields touched by the transition
endpoints.  Timestamps are abstract instants. -/
structure EmployeeEnrollment where
  status : String
  started_at : Option Nat := none
  submitted_at : Option Nat := none
  approved_at : Option Nat := none
  approved_by : Option Nat := none
deriving DecidableEq

/-- `broker_console.EnrollmentPeriod` fields read by `submit_enrollment`. -/
structure EnrollmentPeriod where
  name : String
  coverage_effective_date : String
deriving DecidableEq

/-- `broker_console.EnrollmentEvent` row as written by the endpoints. -/
structure EnrollmentEvent where
  employee : String
  event_type : String
  effective_date : String
  plan_enrollment : Option String := none
  reason : String := ""
  processed_by : Option Nat := none
deriving DecidableEq

/-- `start_enrollment` action (views.py lines 573-583): legal only from
not_started; otherwise a 400 error response and the record untouched.
Returns the record after the request and the error body, if any. -/
def start_enrollment (now : Nat) (e : EmployeeEnrollment) :
    EmployeeEnrollment × Option String :=
  if e.status == "not_started" then
    ({ e with status := "in_progress", started_at := some now }, none)
  else (e, some "Enrollment already started")

/-- `submit_enrollment` action (views.py lines 585-604): legal only from
in_progress; on success writes the record and one EnrollmentEvent of kind
enrollment; otherwise a 400 error response, record untouched, no event. -/
def submit_enrollment (now : Nat) (e : EmployeeEnrollment) (employee : String)
    (period : EnrollmentPeriod) :
    EmployeeEnrollment × List EnrollmentEvent × Option String :=
  if e.status == "in_progress" then
    ({ e with status := "submitted", submitted_at := some now },
     [{ employee := employee, event_type := "enrollment",
        effective_date := period.coverage_effective_date,
        reason := "Enrollment submitted for period: " ++ period.name }],
     none)
  else (e, [], some "Enrollment cannot be submitted")

/-- `approve_enrollment` action (views.py lines 606-617): legal only from
submitted; otherwise a 400 error response and the record untouched. -/
def approve_enrollment (now : Nat) (actor : Nat) (e : EmployeeEnrollment) :
    EmployeeEnrollment × Option String :=
  if e.status == "submitted" then
    ({ e with
        status := "approved"
        approved_at := some now
        approved_by := some actor }, none)
  else (e, some "Enrollment cannot be approved")

/-- `broker_console.PlanEnrollment` fields touched by `terminate`,
including the employee reached through `employee_enrollment.employee`. -/
structure PlanEnrollment where
  id : String
  employee : String
  status : String
  termination_date : Option String := none
deriving DecidableEq

/-- `terminate` action (views.py lines 641-666): a missing (or falsy)
termination_date is a 400 error; otherwise the enrollment is terminated
and one EnrollmentEvent of kind termination is written, referencing the
plan enrollment and the acting user. -/
def terminate (actor : Nat) (pe : PlanEnrollment)
    (termination_date : Option String) (reason : Option String) :
    PlanEnrollment × List EnrollmentEvent × Option String :=
  let reasonValue := reason.getD "Manual termination"
  if !(truthyStr termination_date) then
    (pe, [], some "termination_date is required")
  else
    let d := termination_date.getD ""
    ({ pe with status := "terminated", termination_date := some d },
     [{ employee := pe.employee, event_type := "termination",
        effective_date := d, plan_enrollment := some pe.id,
        reason := reasonValue, processed_by := some actor }],
     none)

/-! ### Shared helper lemmas and concrete fixtures -/

/-- A database whose tables read back empty. -/
def emptyDb : Db := ⟨.ok [], .ok []⟩

/-- A broker organization B1. -/
def orgB1 : Org := ⟨"B1", "broker", true⟩

/-- A database where broker B1 sponsors exactly the employer E2. -/
def db1 : Db := ⟨.ok [orgB1, ⟨"E2", "employer", true⟩], .ok [⟨"E2", "B1"⟩]⟩

/-- A broker_admin profile at B1. -/
def pBroker : Profile := ⟨"broker_admin", some orgB1⟩

/-- A broker_admin user at B1. -/
def uBroker : User := ⟨7, some pBroker⟩

/-- A super_admin user. -/
def uSuper : User := ⟨1, some ⟨"super_admin", none⟩⟩

/-- A database whose every table read fails. -/
def failDb : Db := ⟨.error .dbError, .error .dbError⟩

/-- A string starting with broker_ is not the superuser role. -/
theorem broker_role_ne_super {r : String} (h : pyStartsWith r "broker_" = true) :
    r ≠ "super_admin" := by
  intro he
  subst he
  exact absurd h (by decide)

/-- A string starting with broker_ is not the employee role. -/
theorem broker_role_ne_employee {r : String} (h : pyStartsWith r "broker_" = true) :
    r ≠ "employee" := by
  intro he
  subst he
  exact absurd h (by decide)

/-- Membership in an empty list is always false for `optIn`. -/
theorem optIn_nil (o : Option String) : optIn o [] = false := by
  cases o <;> rfl

/-- After `update_row`, looking up the written primary key finds either
nothing or exactly the written row. -/
theorem find_update_row (dbms : List Membership) (inst : Membership) :
    (update_row dbms inst).find? (fun m => m.pk == inst.pk) = none ∨
    (update_row dbms inst).find? (fun m => m.pk == inst.pk) = some inst := by
  induction dbms with
  | nil => exact Or.inl rfl
  | cons m t ih =>
    by_cases h : m.pk = inst.pk
    · right
      simp [update_row, List.find?, h]
    · have hb : (m.pk == inst.pk) = false := by simpa using h
      simpa [update_row, List.find?, hb] using ih

/-! ### Claim theorems -/

/-- Claim C5: an actor whose resolvable role is super_admin gets
`has_permission = true` for every resource, action and organization
context, with no table lookup. -/
theorem C5_superuser_always_allowed (db : Db) (u : User) (p : Profile)
    (resource action : String) (o : Option String)
    (hp : u.profile = some p) (hr : p.role = "super_admin") :
    has_permission db u resource action o = true := by
  simp [has_permission, hp, hr]

/-- Witness for C5 at a resource and action that appear in no permission
table at all. -/
theorem C5_superuser_always_allowed_witness :
    has_permission emptyDb ⟨1, some ⟨"super_admin", none⟩⟩ "zzz" "qqq" (some "O9") = true :=
  C5_superuser_always_allowed emptyDb ⟨1, some ⟨"super_admin", none⟩⟩
    ⟨"super_admin", none⟩ "zzz" "qqq" (some "O9") rfl rfl

/-- Counterexample to claim C7 as stated: the pair (reports, create) is
absent from the super_admin permission table, yet `has_permission` returns
true for a super_admin actor, because the superuser branch precedes the
table lookup. -/
theorem C7_counterexample :
    (dictGet (dictGet ROLE_PERMISSIONS "super_admin" []) "reports" []).contains "create"
        = false
    ∧ has_permission emptyDb ⟨1, some ⟨"super_admin", none⟩⟩ "reports" "create" none
        = true := by
  exact ⟨by decide, by decide⟩

/-- Claim C7 (amended): for every role other than super_admin, a
(resource, action) pair absent from the role permission table makes
`has_permission` return false, regardless of the organization context;
unknown roles have the empty mapping. -/
theorem C7_deny_outside_table (db : Db) (u : User) (p : Profile)
    (resource action : String) (o : Option String)
    (hp : u.profile = some p) (hr : p.role ≠ "super_admin")
    (hm : (dictGet (dictGet ROLE_PERMISSIONS p.role []) resource []).contains action
            = false) :
    has_permission db u resource action o = false := by
  have hm' : action ∉ dictGet (dictGet ROLE_PERMISSIONS p.role []) resource [] := by
    simpa using hm
  simp [has_permission, hp, hr, hm']

/-- Witness for C7 (amended): an unknown role is denied everything. -/
theorem C7_deny_outside_table_witness :
    has_permission emptyDb ⟨2, some ⟨"mystery_role", some ⟨"E1", "employer", true⟩⟩⟩
      "employees" "read" (some "E1") = false :=
  C7_deny_outside_table emptyDb ⟨2, some ⟨"mystery_role", some ⟨"E1", "employer", true⟩⟩⟩
    ⟨"mystery_role", some ⟨"E1", "employer", true⟩⟩ "employees" "read" (some "E1")
    rfl (by decide) (by decide)

/-- Claim C8: with no resolvable profile, `get_accessible_organizations`
returns the empty list and `filter_queryset_by_permissions` returns the
empty collection, for every resource and every input collection. -/
theorem C8_no_profile_denies (db : Db) (u : User) (qs : List Row) (resource : String)
    (hp : u.profile = none) :
    get_accessible_organizations db u = []
    ∧ filter_queryset_by_permissions db u qs resource = [] := by
  constructor
  · simp [get_accessible_organizations, hp]
  · simp [filter_queryset_by_permissions, hp]

/-- Witness for C8 on a non-empty collection and an arbitrary resource. -/
theorem C8_no_profile_denies_witness :
    get_accessible_organizations emptyDb ⟨3, none⟩ = []
    ∧ filter_queryset_by_permissions emptyDb ⟨3, none⟩ [{ id := "r1" }] "employees" = [] :=
  C8_no_profile_denies emptyDb ⟨3, none⟩ [{ id := "r1" }] "employees" rfl

/-- Claim C9: a successful `terminate` with a termination date sets the
status to terminated, records the date, and appends exactly one
EnrollmentEvent of kind termination referencing this plan enrollment with
the acting operator as processed_by. -/
theorem C9_terminate_emits_one_event (actor : Nat) (pe : PlanEnrollment) (d : String)
    (reason : Option String) (hd : d ≠ "") :
    terminate actor pe (some d) reason =
      ({ pe with status := "terminated", termination_date := some d },
       [{ employee := pe.employee, event_type := "termination", effective_date := d,
          plan_enrollment := some pe.id, reason := reason.getD "Manual termination",
          processed_by := some actor }],
       none) := by
  simp [terminate, truthyStr, hd]

/-- Witness for C9 at a concrete plan enrollment. -/
theorem C9_terminate_emits_one_event_witness :
    terminate 9 ⟨"PE1", "emp1", "enrolled", none⟩ (some "2025-06-30") none =
      (⟨"PE1", "emp1", "terminated", some "2025-06-30"⟩,
       [⟨"emp1", "termination", "2025-06-30", some "PE1", "Manual termination", some 9⟩],
       none) :=
  C9_terminate_emits_one_event 9 ⟨"PE1", "emp1", "enrolled", none⟩ "2025-06-30" none
    (by decide)

/-- Claim C2 (code bug): updating and saving an existing Membership never
produces any AuditEvent, in particular no role_change event, because the
post_save receiver re-reads the row after the save and finds the new role
already stored; the repo test test_membership_role_change_audit expects
exactly one such event. -/
theorem C2_role_change_save_emits_nothing (dbms : List Membership) (inst : Membership) :
    (membership_save_update dbms inst).2 = [] := by
  rcases find_update_row dbms inst with h | h <;>
    simp [membership_save_update, handle_membership_post_save, h]

/-- Counterexample to claim C1 as stated: a denial of the guarded
require_permission decorator (employee requesting employers:read, which
`has_permission` denies) records zero AuditEvents, not exactly one. -/
theorem C1_counterexample :
    require_permission_guard emptyDb
        (some ⟨5, some ⟨"employee", some ⟨"E1", "employer", true⟩⟩⟩)
        "employers" "read" none
      = (.denied, []) := by
  decide

/-- Claim C1 (amended): denials by the membership, role and superuser
guards each record exactly one AuditEvent of kind permission_denied whose
actor is the requesting user and whose metadata reason is no_membership,
insufficient_role or not_superuser respectively, while a denial by the
has_permission-based require_permission decorator records no AuditEvent. -/
theorem C1_denial_audit_events (ms : List Membership) (uid : Nat)
    (orgId viewName : String) (roles : List String) (m : Membership)
    (isSuper : Bool) (db : Db) (u : User) (resource action : String)
    (o : Option String) :
    (find_membership ms uid orgId = none →
       org_scoped_guard ms uid orgId viewName =
         (.denied,
          [{ user := some uid, event := "permission_denied",
             organization := some orgId,
             metadata := { view := some viewName, reason := some "no_membership" } }]))
    ∧ (find_membership ms uid orgId = some m → roles.contains m.role = false →
       requires_role_guard ms uid orgId roles viewName =
         (.denied,
          [{ user := some uid, event := "permission_denied",
             organization := some orgId,
             metadata := { view := some viewName, required_roles := some roles,
                           user_role := some m.role,
                           reason := some "insufficient_role" } }]))
    ∧ (isSuper = false →
       superuser_required_guard uid isSuper viewName =
         (.denied,
          [{ user := some uid, event := "permission_denied",
             metadata := { view := some viewName, reason := some "not_superuser" } }]))
    ∧ (has_permission db u resource action o = false →
       require_permission_guard db (some u) resource action o = (.denied, [])) := by
  refine ⟨?_, ?_, ?_, ?_⟩
  · intro h
    simp [org_scoped_guard, h]
  · intro h hrole
    have hrole' : m.role ∉ roles := by simpa using hrole
    simp [requires_role_guard, h, hrole']
  · intro h
    simp [superuser_required_guard, h]
  · intro h
    simp [require_permission_guard, h]

/-- Witness for C1 (amended), discharging each denial hypothesis on
concrete data: an empty membership table, a broker_user membership failing
a broker_admin role requirement, a non-superuser, and an employee denied
employers:read by has_permission. -/
theorem C1_denial_audit_events_witness :
    org_scoped_guard [] 5 "B1" "dashboard" =
      (.denied,
       [{ user := some 5, event := "permission_denied", organization := some "B1",
          metadata := { view := some "dashboard", reason := some "no_membership" } }])
    ∧ requires_role_guard [⟨1, 5, "B1", "broker_user", "", ""⟩] 5 "B1"
        ["superuser", "broker_admin"] "manage_view" =
      (.denied,
       [{ user := some 5, event := "permission_denied", organization := some "B1",
          metadata := { view := some "manage_view",
                        required_roles := some ["superuser", "broker_admin"],
                        user_role := some "broker_user",
                        reason := some "insufficient_role" } }])
    ∧ superuser_required_guard 5 false "admin_view" =
      (.denied,
       [{ user := some 5, event := "permission_denied",
          metadata := { view := some "admin_view", reason := some "not_superuser" } }])
    ∧ require_permission_guard emptyDb
        (some ⟨6, some ⟨"employee", some ⟨"E1", "employer", true⟩⟩⟩)
        "employers" "read" none = (.denied, []) := by
  have h := C1_denial_audit_events [] 5 "B1" "dashboard" ["superuser", "broker_admin"]
    ⟨1, 5, "B1", "broker_user", "", ""⟩ false emptyDb
    ⟨6, some ⟨"employee", some ⟨"E1", "employer", true⟩⟩⟩ "employers" "read" none
  have h2 := C1_denial_audit_events [⟨1, 5, "B1", "broker_user", "", ""⟩] 5 "B1"
    "manage_view" ["superuser", "broker_admin"] ⟨1, 5, "B1", "broker_user", "", ""⟩
    false emptyDb ⟨6, some ⟨"employee", some ⟨"E1", "employer", true⟩⟩⟩
    "employers" "read" none
  have h3 := C1_denial_audit_events [] 5 "B1" "admin_view" ["superuser", "broker_admin"]
    ⟨1, 5, "B1", "broker_user", "", ""⟩ false emptyDb
    ⟨6, some ⟨"employee", some ⟨"E1", "employer", true⟩⟩⟩ "employers" "read" none
  exact ⟨h.1 (by decide), h2.2.1 (by decide) (by decide), h3.2.2.1 (by decide),
         h.2.2.2 (by decide)⟩

/-- Claim C4: each EmployeeEnrollment transition is legal only from its
designated predecessor state; from any other state the endpoint answers
with a 400 error (the InvalidTransition surface of the spec), the record
is unchanged, and submit emits no EnrollmentEvent. -/
theorem C4_transitions_strictly_ordered (now actor : Nat) (e : EmployeeEnrollment)
    (employee : String) (period : EnrollmentPeriod) :
    ((start_enrollment now e).2 = none ↔ e.status = "not_started")
    ∧ (e.status ≠ "not_started" →
        start_enrollment now e = (e, some "Enrollment already started"))
    ∧ ((submit_enrollment now e employee period).2.2 = none ↔ e.status = "in_progress")
    ∧ (e.status ≠ "in_progress" →
        submit_enrollment now e employee period =
          (e, [], some "Enrollment cannot be submitted"))
    ∧ ((approve_enrollment now actor e).2 = none ↔ e.status = "submitted")
    ∧ (e.status ≠ "submitted" →
        approve_enrollment now actor e = (e, some "Enrollment cannot be approved")) := by
  refine ⟨?_, ?_, ?_, ?_, ?_, ?_⟩ <;>
    first
      | (constructor
         · intro h
           by_contra hne
           simp [start_enrollment, submit_enrollment, approve_enrollment, hne] at h
         · intro h
           simp [start_enrollment, submit_enrollment, approve_enrollment, h])
      | (intro h
         simp [start_enrollment, submit_enrollment, approve_enrollment, h])

/-- Witness for C4: submit on a fresh not_started enrollment fails and
leaves the record untouched with no event. -/
theorem C4_transitions_strictly_ordered_witness :
    submit_enrollment 5 ⟨"not_started", none, none, none, none⟩ "emp1"
        ⟨"OE", "2025-01-01"⟩ =
      (⟨"not_started", none, none, none, none⟩, [],
       some "Enrollment cannot be submitted") :=
  (C4_transitions_strictly_ordered 5 9 ⟨"not_started", none, none, none, none⟩
    "emp1" ⟨"OE", "2025-01-01"⟩).2.2.2.1 (by decide)

/-- Counterexample to claim C3 as stated: a broker_user with no assigned
organization, a supplied organization context and a scoped action must be
denied per the claim, but the code skips the organization check entirely
(the check requires both a context and a user organization) and allows on
the table lookup alone. -/
theorem C3_counterexample :
    has_permission emptyDb ⟨3, some ⟨"broker_user", none⟩⟩ "employees" "update"
      (some "X1") = true := by
  decide

/-- Claim C3 (amended): for a non-superuser role whose table contains the
action, when a non-empty organization context is supplied, the actor has
an organization with a non-empty id and the action is organization-scoped:
broker-family roles are allowed iff the context names an Employer
sponsored by their organization, employer-family roles and the employee
role iff the context equals their organization id, and every other role is
denied; when either side of the context pair is missing or the action is
not scoped, the table lookup alone grants access. -/
theorem C3_org_context_check (db : Db) (u : User) (p : Profile)
    (resource action : String) (o : Option String)
    (hp : u.profile = some p) (hr : p.role ≠ "super_admin")
    (hm : (dictGet (dictGet ROLE_PERMISSIONS p.role []) resource []).contains action
            = true) :
    (∀ org oc, p.organization = some org → o = some oc → org.id ≠ "" → oc ≠ "" →
       org_scoped_actions.contains action = true →
       has_permission db u resource action o =
         ((pyStartsWith p.role "broker_" && user_can_access_employer db p oc)
          || ((pyStartsWith p.role "employer_" || p.role == "employee")
              && (org.id == oc))))
    ∧ ((truthyStr o && truthyStr (p.organization.map (fun x => x.id))) = false →
       has_permission db u resource action o = true)
    ∧ (org_scoped_actions.contains action = false →
       has_permission db u resource action o = true) := by
  have hm' : action ∈ dictGet (dictGet ROLE_PERMISSIONS p.role []) resource [] := by
    simpa using hm
  refine ⟨?_, ?_, ?_⟩
  · intro org oc horg hoc horgid hocne hscoped
    subst hoc
    have hscoped' : action ∈ org_scoped_actions := by simpa using hscoped
    simp only [has_permission, hp]
    simp [hr, hm', hscoped', horg, truthyStr, horgid, hocne]
    cases hb : pyStartsWith p.role "broker_" <;>
      cases hc : user_can_access_employer db p oc <;>
        cases he : pyStartsWith p.role "employer_" <;>
          cases hee : p.role == "employee" <;>
            by_cases heq : org.id = oc <;>
              simp_all [beq_iff_eq]
  · intro h
    simp only [has_permission, hp]
    simp [hr, hm', h]
  · intro h
    have h' : action ∉ org_scoped_actions := by simpa using h
    simp only [has_permission, hp]
    simp [hr, hm', h']

/-- Witness for C3 (amended): broker_admin at B1 sponsoring E2 is allowed
an update scoped to E2 and denied one scoped to its own organization B1. -/
theorem C3_org_context_check_witness :
    has_permission db1 uBroker "employees" "update" (some "E2") = true
    ∧ has_permission db1 uBroker "employees" "update" (some "B1") = false := by
  have h := C3_org_context_check db1 uBroker pBroker "employees" "update" (some "E2")
    rfl (by decide) (by decide)
  have h' := C3_org_context_check db1 uBroker pBroker "employees" "update" (some "B1")
    rfl (by decide) (by decide)
  constructor
  · exact (h.1 orgB1 "E2" rfl rfl (by decide) (by decide) (by decide)).trans (by decide)
  · exact (h'.1 orgB1 "B1" rfl rfl (by decide) (by decide) (by decide)).trans (by decide)

/-- Claim C6: a broker-family actor at a broker organization B can access
exactly B together with the Employer organizations sponsored by B. -/
theorem C6_broker_accessible_organizations (db : Db) (emps : List Employer)
    (u : User) (p : Profile) (org : Org)
    (hdb : db.employers = .ok emps) (hp : u.profile = some p)
    (hr : pyStartsWith p.role "broker_" = true)
    (ho : p.organization = some org) (ht : org.type = "broker") :
    ∀ x, x ∈ get_accessible_organizations db u ↔
      (x = org.id ∨ ∃ e ∈ emps, e.broker_id = org.id ∧ x = e.id) := by
  intro x
  have hr' : p.role ≠ "super_admin" := broker_role_ne_super hr
  simp only [get_accessible_organizations, hp]
  simp [hr, hr', ho, ht, hdb, List.mem_map, List.mem_filter]
  constructor
  · rintro (hx | ⟨e, ⟨hmem, hbk⟩, hid⟩)
    · exact Or.inl hx
    · exact Or.inr ⟨e, hmem, hbk, hid.symm⟩
  · rintro (hx | ⟨e, hmem, hbk, hid⟩)
    · exact Or.inl hx
    · exact Or.inr ⟨e, ⟨hmem, hbk⟩, hid.symm⟩

/-- Witness for C6: for broker_admin at B1 sponsoring E2, the accessible
set is exactly B1 and E2. -/
theorem C6_broker_accessible_organizations_witness :
    ("B1" ∈ get_accessible_organizations db1 uBroker)
    ∧ ("E2" ∈ get_accessible_organizations db1 uBroker)
    ∧ get_accessible_organizations db1 uBroker = ["B1", "E2"] := by
  have h := C6_broker_accessible_organizations db1 [⟨"E2", "B1"⟩] uBroker pBroker orgB1
    rfl rfl (by decide) rfl rfl
  refine ⟨(h "B1").mpr (Or.inl rfl), (h "E2").mpr ?_, by decide⟩
  exact Or.inr ⟨⟨"E2", "B1"⟩, by simp, rfl, rfl⟩

/-- Claim C10: the access evaluators fail closed.  A database error inside
`get_accessible_organizations` yields the empty list; a failing Employer
read makes the broker employer-access check false; and for a broker actor
it empties both the accessible organizations and the filtered employee
collection, so no internal error ever escapes as an exception. -/
theorem C10_fail_closed (db : Db) (u : User) (p : Profile) (org : Org)
    (qs : List Row) (e1 e2 : DbErr) :
    (get_accessible_organizations_body db u = .error e1 →
       get_accessible_organizations db u = [])
    ∧ (db.employers = .error e2 →
       ∀ (p2 : Profile) (oid : String), user_can_access_employer db p2 oid = false)
    ∧ (db.employers = .error e2 → u.profile = some p →
       pyStartsWith p.role "broker_" = true → p.organization = some org →
       org.type = "broker" →
       get_accessible_organizations db u = []
       ∧ filter_queryset_by_permissions db u qs "employees" = []) := by
  refine ⟨?_, ?_, ?_⟩
  · intro h
    cases hu : u.profile with
    | none => simp [get_accessible_organizations_body, hu] at h
    | some prof =>
      by_cases hsa : prof.role = "super_admin"
      · cases horgs : db.organizations with
        | ok orgs => simp [get_accessible_organizations_body, hu, hsa, horgs] at h
        | error e => simp [get_accessible_organizations, hu, hsa, horgs]
      · by_cases hbk : pyStartsWith prof.role "broker_" = true
        · cases ho : prof.organization with
          | none => simp [get_accessible_organizations_body, hu, hsa, hbk, ho] at h
          | some o2 =>
            by_cases htb : o2.type = "broker"
            · cases hemp : db.employers with
              | ok emps =>
                simp [get_accessible_organizations_body, hu, hsa, hbk, ho, htb, hemp] at h
              | error e =>
                simp [get_accessible_organizations, hu, hsa, hbk, ho, htb, hemp]
            · simp [get_accessible_organizations_body, hu, hsa, hbk, ho, htb] at h
        · cases ho : prof.organization with
          | none => simp [get_accessible_organizations_body, hu, hsa, hbk, ho] at h
          | some o2 => simp [get_accessible_organizations_body, hu, hsa, hbk, ho] at h
  · intro h p2 oid
    cases ho : p2.organization with
    | none => simp [user_can_access_employer, ho]
    | some o2 => simp [user_can_access_employer, ho, h]
  · intro hemp hu hbk ho htb
    have hsa : p.role ≠ "super_admin" := broker_role_ne_super hbk
    have hee : p.role ≠ "employee" := broker_role_ne_employee hbk
    have hacc : get_accessible_organizations db u = [] := by
      simp [get_accessible_organizations, hu, hsa, hbk, ho, htb, hemp]
    refine ⟨hacc, ?_⟩
    simp [filter_queryset_by_permissions, hu, hsa, hee, hacc, optIn_nil]

/-- Witness for C10: on a database whose every read fails, the resolver
returns the empty list for a super_admin, the broker employer check is
false, and a broker sees an empty accessible set and an empty employee
collection. -/
theorem C10_fail_closed_witness :
    get_accessible_organizations failDb uSuper = []
    ∧ user_can_access_employer failDb pBroker "E2" = false
    ∧ get_accessible_organizations failDb uBroker = []
    ∧ filter_queryset_by_permissions failDb uBroker
        [{ id := "r1", employer_id := some "E2" }] "employees" = [] := by
  have hs := C10_fail_closed failDb uSuper pBroker orgB1
    [{ id := "r1", employer_id := some "E2" }] .dbError .dbError
  have hb := C10_fail_closed failDb uBroker pBroker orgB1
    [{ id := "r1", employer_id := some "E2" }] .dbError .dbError
  have h3 := hb.2.2 rfl rfl (by decide) rfl rfl
  exact ⟨hs.1 rfl, hs.2.1 rfl pBroker "E2", h3.1, h3.2⟩

end Hris
